import Mathlib

/-!
Verification of the live time-series ingestion pipeline of the Renault
dashboard frontend, as implemented in `src/pages/Renault/LiveTestViewer.tsx`.

The component state of `LiveTestViewer` is embedded as an explicit record
(`LiveState`), the UI actions (Start Live, Stop, selection changes) and the
poll tick as pure state transformers, and the surrounding browser event loop
(the `setInterval` timer plus the set of in-flight HTTP fetches) as a small
step function `applyEvent` over a `World` record.  Numeric channel values
(TypeScript `number`) are modelled as rationals; `null` is modelled as
`Option.none`; the wall-clock string produced by `toLocaleTimeString()` is an
opaque `String` supplied by the environment.
-/

namespace LiveViewer

/-- A test run, as returned by `GET /tests` (`type Test` in the source). -/
structure Test where
  id : Int
  name : String
deriving DecidableEq, Repr

/-- One telemetry sample (`type Point` in the source).  Every channel is
nullable in the source (`number | null`), hence `Option ℚ` here. -/
structure Point where
  idx : Int
  t_hour : ℚ
  rpm : Option ℚ
  cons : Option ℚ
  t1 : Option ℚ
  t2 : Option ℚ
  t3 : Option ℚ
  b1 : Option ℚ
  b2 : Option ℚ
  b3 : Option ℚ
  b4 : Option ℚ
  l1 : Option ℚ
  l2 : Option ℚ
  sup : Option ℚ
deriving DecidableEq, Repr

/-- A sample augmented with the derived display metrics computed by the
`chartData` `useMemo` in the source. -/
structure DerivedPoint extends Point where
  current_a : Option ℚ
  vdrop : Option ℚ
  hv_minus_avg : Option ℚ
  hv_plus_avg : Option ℚ
deriving DecidableEq, Repr

/-- The per-sample body of the `chartData` map:
`{...p, current_a: p.cons, vdrop: t1,t2,t3 all non-null ? mean : null,
  hv_minus_avg: b1,b2 non-null ? mean : null,
  hv_plus_avg: b3,b4 non-null ? mean : null}`. -/
def derive (p : Point) : DerivedPoint :=
  { p with
    current_a := p.cons
    vdrop :=
      match p.t1, p.t2, p.t3 with
      | some a, some b, some c => some ((a + b + c) / 3)
      | _, _, _ => none
    hv_minus_avg :=
      match p.b1, p.b2 with
      | some a, some b => some ((a + b) / 2)
      | _, _ => none
    hv_plus_avg :=
      match p.b3, p.b4 with
      | some a, some b => some ((a + b) / 2)
      | _, _ => none }

/-- The derived chart input: `data.map(...)` in the `chartData` memo. -/
def chartData (data : List Point) : List DerivedPoint :=
  data.map derive

/-- The React state of the `LiveTestViewer` component: the five `useState`
hooks plus the `lastIdxRef` mutable ref (the accumulation cursor). -/
structure LiveState where
  tests : List Test
  testId : Option Int
  system : Nat
  live : Bool
  data : List Point
  lastUpdate : String
  lastIdx : Int
deriving DecidableEq, Repr

/-- The initial component state: `useState` defaults (`tests = []`,
`testId = null`, `system = 1`, `live = false`, `data = []`,
`lastUpdate = "—"`) and `lastIdxRef = useRef(0)`. -/
def initialState : LiveState :=
  { tests := []
    testId := none
    system := 1
    live := false
    data := []
    lastUpdate := "—"
    lastIdx := 0 }

/-- Query parameters of one `GET /live_series` request, as assembled in the
poll callback. -/
structure FetchParams where
  test_id : Int
  system : Nat
  from_idx : Int
  limit : Nat
deriving DecidableEq, Repr

/-- JavaScript truthiness of `testId : number | null`: `!testId` is `true`
exactly when `testId` is `null` or `0`. -/
def jsFalsy : Option Int → Bool
  | none => true
  | some v => v == 0

/-- The `disabled={!testId || live}` guard of the Start Live button. -/
def startDisabled (s : LiveState) : Bool :=
  jsFalsy s.testId || s.live

/-- The `disabled={!live}` guard of the Stop button. -/
def stopDisabled (s : LiveState) : Bool :=
  !s.live

/-- The Start Live button `onClick`: `setData([]); lastIdxRef.current = 0;
setLive(true)` — a no-op when the button is disabled. -/
def startLive (s : LiveState) : LiveState :=
  if startDisabled s then s
  else { s with data := [], lastIdx := 0, live := true }

/-- The Stop button `onClick`: `setLive(false)` — a no-op when disabled. -/
def stopLive (s : LiveState) : LiveState :=
  if stopDisabled s then s else { s with live := false }

/-- The test `<select>` `onChange`: `setTestId(Number(e.target.value))`.
The selector carries `disabled={live}`, so no change happens while live. -/
def changeTest (s : LiveState) (t : Int) : LiveState :=
  if s.live then s else { s with testId := some t }

/-- The system `<select>` `onChange`: `setSystem(Number(e.target.value))`,
likewise disabled while live. -/
def changeSystem (s : LiveState) (sys : Nat) : LiveState :=
  if s.live then s else { s with system := sys }

/-- The request the poll callback issues:
`api.get("/live_series", {params: {test_id: testId, system,
from_idx: lastIdxRef.current, limit: 500}})`.  The polling effect only runs
with `testId ≠ null`, so the `getD 0` default is never observable there. -/
def pollRequest (s : LiveState) : FetchParams :=
  { test_id := s.testId.getD 0
    system := s.system
    from_idx := s.lastIdx
    limit := 500 }

/-- The continuation of the poll callback once the fetch resolved with
`resp`, paired with a flag recording whether any state setter was invoked
(i.e. whether a re-render was triggered):
`if (res.data.length > 0) { lastIdxRef.current = res.data[len-1].idx;
setData(prev => [...prev, ...res.data]); setLastUpdate(now); }`. -/
def pollTickR (s : LiveState) (resp : List Point) (now : String) :
    LiveState × Bool :=
  match resp.getLast? with
  | some last =>
      ({ s with
          lastIdx := last.idx
          data := s.data ++ resp
          lastUpdate := now }, true)
  | none => (s, false)

/-- The state after one resolved poll tick. -/
def pollTick (s : LiveState) (resp : List Point) (now : String) : LiveState :=
  (pollTickR s resp now).1

/-- The documented contract of `GET /live_series?test_id&system&from_idx&limit`:
samples with `idx > from_idx`, in ascending `idx` order, at most `limit`
entries. -/
def LiveSeriesResponse (req : FetchParams) (resp : List Point) : Prop :=
  List.Chain' (fun p q => p.idx < q.idx) resp ∧
    (∀ p ∈ resp, req.from_idx < p.idx) ∧ resp.length ≤ req.limit

/-- The browser-level state surrounding the component: the component state,
whether the `setInterval` timer installed by the polling effect is currently
active, and the queue of fetches that have been issued but have not yet
resolved.  `clearInterval` flips `intervalActive` off but leaves `inflight`
untouched: an already-issued HTTP request is not aborted by the cleanup. -/
structure World where
  comp : LiveState
  intervalActive : Bool
  inflight : List FetchParams
deriving DecidableEq, Repr

/-- Events delivered by the event loop: a 2000 ms interval tick (which issues
a fetch), the resolution or rejection of the `i`-th in-flight fetch, the two
buttons, and the two selection changes. -/
inductive Event where
  | tick : Event
  | resolve : Nat → List Point → String → Event
  | reject : Nat → Event
  | clickStart : Event
  | clickStop : Event
  | selectTest : Int → Event
  | selectSystem : Nat → Event
deriving DecidableEq, Repr

/-- One step of the event loop, exactly as the source behaves:

* `tick` — the interval callback starts and immediately issues
  `api.get("/live_series", ...)` with the current cursor; `setInterval` fires
  regardless of whether an earlier fetch is still pending.
* `resolve i resp now` — the `await` of the `i`-th pending fetch returns and
  the rest of the callback runs.  The source has no abort controller and no
  session guard after the `await`, so this runs even if the interval was
  cleared or live mode was stopped/restarted in the meantime.
* `reject i` — the fetch fails; the `await` throws, the callback aborts with
  an unhandled rejection, and no component state is touched (there is no
  `try`/`catch` in the source).
* `clickStart` — when enabled, resets store and cursor, sets `live`; the
  polling effect then re-runs with `live = true` and `testId ≠ null`
  (guaranteed by the `!testId` guard), installing the interval.
* `clickStop` — when enabled, clears `live`; the effect cleanup runs
  `clearInterval(timer)`, which cancels future ticks only.
* `selectTest` / `selectSystem` — the selectors, disabled while live. -/
def applyEvent (w : World) : Event → World
  | Event.tick =>
      if w.intervalActive then
        { w with inflight := w.inflight ++ [pollRequest w.comp] }
      else w
  | Event.resolve i resp now =>
      if i < w.inflight.length then
        { w with
            inflight := w.inflight.eraseIdx i
            comp := pollTick w.comp resp now }
      else w
  | Event.reject i =>
      if i < w.inflight.length then
        { w with inflight := w.inflight.eraseIdx i }
      else w
  | Event.clickStart =>
      if startDisabled w.comp then w
      else { w with comp := startLive w.comp, intervalActive := true }
  | Event.clickStop =>
      if stopDisabled w.comp then w
      else { w with comp := stopLive w.comp, intervalActive := false }
  | Event.selectTest t => { w with comp := changeTest w.comp t }
  | Event.selectSystem sys => { w with comp := changeSystem w.comp sys }

/-- Run a list of events through the event loop. -/
def runEvents (w : World) (es : List Event) : World :=
  es.foldl applyEvent w

/-- A sequential live session viewed from the component: a list of resolved
poll responses applied in order.  The wall-clock argument of each tick does
not influence `data` or `lastIdx`, so it is fixed arbitrarily. -/
def runPolls (s : LiveState) (bs : List (List Point)) : LiveState :=
  bs.foldl (fun st b => pollTick st b "t") s

/-- A response batch acceptable at cursor `c` under the `/live_series`
contract: non-empty, strictly ascending `idx`, every `idx` beyond `c`. -/
def ValidBatch (c : Int) (b : List Point) : Prop :=
  b ≠ [] ∧ List.Chain' (fun p q => p.idx < q.idx) b ∧ ∀ p ∈ b, c < p.idx

/-- The cursor value after one batch: the `idx` of its last sample, or the
old cursor when the batch is empty (mirrors `res.data[res.data.length-1].idx`). -/
def batchCursor (c : Int) (b : List Point) : Int :=
  match b.getLast? with
  | some l => l.idx
  | none => c

/-- A sequence of non-empty response batches, each valid with respect to the
cursor left by its predecessors. -/
def ValidBatches : Int → List (List Point) → Prop
  | _, [] => True
  | c, b :: rest => ValidBatch c b ∧ ValidBatches (batchCursor c b) rest

/-! Concrete fixtures used by counterexamples and witnesses. -/

/-- A sample at index `i` with no channel readings. -/
def blankPoint (i : Int) : Point :=
  { idx := i, t_hour := 0, rpm := none, cons := none, t1 := none, t2 := none
    t3 := none, b1 := none, b2 := none, b3 := none, b4 := none, l1 := none
    l2 := none, sup := none }

/-- The component state just after mount with the test list loaded and the
first test selected, live mode off. -/
def readyComp : LiveState :=
  { initialState with tests := [{ id := 1, name := "T1" }], testId := some 1 }

/-- The view just after mount, before any live session. -/
def sessionReady : World :=
  { comp := readyComp, intervalActive := false, inflight := [] }

/-- A sample produced for the first live session, still in flight when that
session is stopped. -/
def stalePt : Point := blankPoint 5

/-- An armed session with one request in flight. -/
def wArmed : World :=
  { comp := { readyComp with live := true }
    intervalActive := true
    inflight := [{ test_id := 1, system := 1, from_idx := 0, limit := 500 }] }

/-! Basic lemmas about the poll tick and the UI actions. -/

/-- The poll tick always concatenates the response onto the store. -/
theorem pollTick_data (s : LiveState) (b : List Point) (now : String) :
    (pollTick s b now).data = s.data ++ b := by
  rcases h : b.getLast? with _ | last
  · have hb : b = [] := List.getLast?_eq_none_iff.mp h
    simp [pollTick, pollTickR, h, hb]
  · simp [pollTick, pollTickR, h]

/-- The poll tick moves the cursor to the last sample's `idx` (or keeps it on
an empty response). -/
theorem pollTick_lastIdx (s : LiveState) (b : List Point) (now : String) :
    (pollTick s b now).lastIdx = batchCursor s.lastIdx b := by
  rcases h : b.getLast? with _ | last <;> simp [pollTick, pollTickR, batchCursor, h]

/-- Stop changes nothing but the live flag. -/
theorem stopLive_fields (s : LiveState) :
    (stopLive s).data = s.data ∧ (stopLive s).lastIdx = s.lastIdx ∧
      (stopLive s).lastUpdate = s.lastUpdate ∧ (stopLive s).live = false := by
  unfold stopLive stopDisabled
  cases h : s.live <;> simp [h]

/-- Selection changes never touch the store or the cursor. -/
theorem changeTest_fields (s : LiveState) (t : Int) :
    (changeTest s t).data = s.data ∧ (changeTest s t).lastIdx = s.lastIdx := by
  unfold changeTest
  split <;> simp

/-- Selection changes never touch the store or the cursor. -/
theorem changeSystem_fields (s : LiveState) (sys : Nat) :
    (changeSystem s sys).data = s.data ∧ (changeSystem s sys).lastIdx = s.lastIdx := by
  unfold changeSystem
  split <;> simp

/-! Claim theorems. -/

/-- C1: the claim states that on every transition out of Armed (Stop,
unmount, effect re-run) every in-flight or scheduled fetch is cancelled, so
a stale response never mutates the Series Store of a later session.  The
cleanup only runs `clearInterval`; an already-issued fetch has no abort
signal and its continuation has no session guard.  Concretely: start a
session, let one fetch go out, stop, start a new session (store reset to
`[]`, second conjunct), and then let the old fetch resolve with a sample of
the old session — the sample is appended to the new session's store (first
conjunct), contradicting the claim. -/
theorem c1_stale_response_mutates_new_session :
    (runEvents sessionReady
        [Event.clickStart, Event.tick, Event.clickStop, Event.clickStart,
          Event.resolve 0 [stalePt] "10:00:01"]).comp.data = [stalePt] ∧
    (runEvents sessionReady
        [Event.clickStart, Event.tick, Event.clickStop,
          Event.clickStart]).comp.data = [] :=
  ⟨rfl, rfl⟩

/-- C2: the claim states that at most one fetch is in flight per armed
session and that two overlapping requests with the same `from_idx` are never
issued.  `setInterval` fires its async callback every 2000 ms regardless of
whether the previous `await api.get` has resolved, so when a fetch outlasts
one period, the next tick issues a second request with the identical cursor:
after two ticks with no resolution, two identical requests with
`from_idx = 0` are in flight. -/
theorem c2_overlapping_requests_same_cursor :
    (runEvents sessionReady [Event.clickStart, Event.tick, Event.tick]).inflight =
      [{ test_id := 1, system := 1, from_idx := 0, limit := 500 },
        { test_id := 1, system := 1, from_idx := 0, limit := 500 }] :=
  rfl

/-- C3: the derivation of chart metrics is pure and total; `vdrop` is the
arithmetic mean of `t1`,`t2`,`t3` exactly when all three are present and
absent otherwise; `hv_minus_avg` is the mean of `b1`,`b2` when both are
present, else absent; `hv_plus_avg` likewise for `b3`,`b4`; absent inputs
propagate to an absent result and are never coerced to zero. -/
theorem c3_derived_metrics (p : Point) :
    ((∀ a b c : ℚ, p.t1 = some a → p.t2 = some b → p.t3 = some c →
        (derive p).vdrop = some ((a + b + c) / 3)) ∧
      ((p.t1 = none ∨ p.t2 = none ∨ p.t3 = none) → (derive p).vdrop = none)) ∧
    ((∀ a b : ℚ, p.b1 = some a → p.b2 = some b →
        (derive p).hv_minus_avg = some ((a + b) / 2)) ∧
      ((p.b1 = none ∨ p.b2 = none) → (derive p).hv_minus_avg = none)) ∧
    ((∀ a b : ℚ, p.b3 = some a → p.b4 = some b →
        (derive p).hv_plus_avg = some ((a + b) / 2)) ∧
      ((p.b3 = none ∨ p.b4 = none) → (derive p).hv_plus_avg = none)) := by
  refine ⟨⟨?_, ?_⟩, ⟨?_, ?_⟩, ⟨?_, ?_⟩⟩
  · intro a b c h1 h2 h3; simp [derive, h1, h2, h3]
  · intro h
    rcases h1 : p.t1 with _ | a <;> rcases h2 : p.t2 with _ | b <;>
      rcases h3 : p.t3 with _ | c <;> simp [derive, h1, h2, h3] <;> simp_all
  · intro a b h1 h2; simp [derive, h1, h2]
  · intro h
    rcases h1 : p.b1 with _ | a <;> rcases h2 : p.b2 with _ | b <;>
      simp [derive, h1, h2] <;> simp_all
  · intro a b h1 h2; simp [derive, h1, h2]
  · intro h
    rcases h1 : p.b3 with _ | a <;> rcases h2 : p.b4 with _ | b <;>
      simp [derive, h1, h2] <;> simp_all

/-- A fully populated sample used by the C3 witness. -/
def richPoint : Point :=
  { idx := 1, t_hour := 0, rpm := some 100, cons := some 7, t1 := some 1
    t2 := some 2, t3 := some 3, b1 := some 4, b2 := some 6, b3 := some 10
    b4 := some 20, l1 := some 1, l2 := some 2, sup := some 3 }

/-- Witness for C3 at concrete samples: the spec scenario
`derive({t1:1,t2:2,t3:3}).vdrop = 2` and absence propagation. -/
theorem c3_witness :
    (derive richPoint).vdrop = some ((1 + 2 + 3) / 3) ∧
      (derive (blankPoint 1)).vdrop = none ∧
      (derive richPoint).hv_minus_avg = some ((4 + 6) / 2) ∧
      (derive richPoint).hv_plus_avg = some ((10 + 20) / 2) :=
  ⟨(c3_derived_metrics richPoint).1.1 1 2 3 rfl rfl rfl,
    (c3_derived_metrics (blankPoint 1)).1.2 (Or.inl rfl),
    (c3_derived_metrics richPoint).2.1.1 4 6 rfl rfl,
    (c3_derived_metrics richPoint).2.2.1 10 20 rfl rfl⟩

/-- C6: a poll tick whose response is empty changes nothing: the returned
state is the input state unchanged (same cursor, same sequence, same
"last updated" timestamp), and the flag recording whether any state setter
ran — i.e. whether a re-render was triggered — is `false`. -/
theorem c6_empty_response_noop (s : LiveState) (now : String) :
    pollTickR s [] now = (s, false) :=
  rfl

/-- C7: appends are pure concatenation: starting from an empty store,
`append(b1)` then `append(b2)` (where every idx of `b2` exceeds every idx of
`b1`) yields exactly `b1 ++ b2` — no deduplication, no reordering. -/
theorem c7_appends_concatenate (s : LiveState) (b1 b2 : List Point)
    (n1 n2 : String) (hs : s.data = [])
    (hlt : ∀ p ∈ b1, ∀ q ∈ b2, p.idx < q.idx) :
    (pollTick (pollTick s b1 n1) b2 n2).data = b1 ++ b2 := by
  rw [pollTick_data, pollTick_data, hs, List.nil_append]

/-- Witness for C7: two singleton batches with increasing indices. -/
theorem c7_witness :
    (pollTick (pollTick initialState [blankPoint 1] "a") [blankPoint 2] "b").data =
      [blankPoint 1] ++ [blankPoint 2] :=
  c7_appends_concatenate initialState [blankPoint 1] [blankPoint 2] "a" "b" rfl
    (by intro p hp q hq; simp at hp hq; subst hp; subst hq; decide)

/-- A stopped session that still holds the data of a finished live session:
store non-empty, cursor at 5, live off. -/
def sStopped : LiveState :=
  { readyComp with data := [blankPoint 5], lastIdx := 5 }

/-- C4 counterexample: the claim states that the store is cleared and the
cursor zeroed on every change of the selection.  Changing the system
selection (allowed exactly when live mode is off) changes the selection but
leaves the store non-empty and the cursor non-zero: no reset happens on
selection change. -/
theorem c4_selection_change_performs_no_reset :
    (changeSystem sStopped 2).system = 2 ∧
      (changeSystem sStopped 2).data = [blankPoint 5] ∧
      (changeSystem sStopped 2).lastIdx = 5 :=
  ⟨rfl, rfl, rfl⟩

/-- C4 (amended): only the Start Live action clears the store and zeroes the
cursor; selection changes (test or system) leave both untouched. -/
theorem c4_reset_only_on_start (s : LiveState) (t : Int) (sys : Nat)
    (h : startDisabled s = false) :
    (startLive s).data = [] ∧ (startLive s).lastIdx = 0 ∧
      (startLive s).live = true ∧
      (changeTest s t).data = s.data ∧ (changeTest s t).lastIdx = s.lastIdx ∧
      (changeSystem s sys).data = s.data ∧
      (changeSystem s sys).lastIdx = s.lastIdx := by
  refine ⟨?_, ?_, ?_, (changeTest_fields s t).1, (changeTest_fields s t).2,
    (changeSystem_fields s sys).1, (changeSystem_fields s sys).2⟩ <;>
    simp [startLive, h]

/-- Witness for the amended C4 at a concrete enabled state. -/
theorem c4_witness :
    (startLive readyComp).data = [] ∧ (startLive readyComp).lastIdx = 0 ∧
      (startLive readyComp).live = true ∧
      (changeTest readyComp 2).data = readyComp.data ∧
      (changeTest readyComp 2).lastIdx = readyComp.lastIdx ∧
      (changeSystem readyComp 2).data = readyComp.data ∧
      (changeSystem readyComp 2).lastIdx = readyComp.lastIdx :=
  c4_reset_only_on_start readyComp 2 2 rfl

/-- C8 counterexample: the claim states that a fetch failure is "surfaced as
a non-fatal status indicator".  The source has no `try`/`catch` and no error
state: when the `i`-th in-flight fetch rejects, the whole world after the
event equals the world before it with the request merely removed from the
in-flight queue — not a single component-state field changes, so nothing at
all is surfaced to the UI. -/
theorem c8_failure_surfaces_nothing :
    applyEvent wArmed (Event.reject 0) = { wArmed with inflight := [] } :=
  rfl

/-- C8 (amended): a fetch failure on one tick is transient — the component
state (live flag, store, cursor, timestamp) is completely unchanged and the
interval stays active, so the next scheduled tick retries automatically —
but no status indicator is updated: the failure is not surfaced. -/
theorem c8_failure_transient (w : World) (i : Nat) :
    (applyEvent w (Event.reject i)).comp = w.comp ∧
      (applyEvent w (Event.reject i)).intervalActive = w.intervalActive := by
  simp only [applyEvent]
  split <;> simp

/-- C9: Stop only disarms: it never changes the store, the cursor, the
timestamp, and always leaves `live = false`; and across every event of the
event loop, the store becomes empty only if it already was empty or the
event is a Start Live click — previously fetched data stays displayed until
the next Start. -/
theorem c9_stop_preserves_data :
    (∀ s : LiveState, (stopLive s).data = s.data ∧
        (stopLive s).lastIdx = s.lastIdx ∧
        (stopLive s).lastUpdate = s.lastUpdate ∧ (stopLive s).live = false) ∧
    (∀ (w : World) (e : Event), (applyEvent w e).comp.data = [] →
        w.comp.data = [] ∨ e = Event.clickStart) := by
  refine ⟨stopLive_fields, ?_⟩
  intro w e h
  cases e with
  | clickStart => exact Or.inr rfl
  | tick =>
      left; simp only [applyEvent] at h
      split at h <;> simpa using h
  | resolve i resp now =>
      left; simp only [applyEvent] at h
      split at h
      · simp only [pollTick_data, List.append_eq_nil] at h
        exact h.1
      · exact h
  | reject i =>
      left; simp only [applyEvent] at h
      split at h <;> simpa using h
  | clickStop =>
      left; simp only [applyEvent] at h
      split at h
      · exact h
      · simpa [(stopLive_fields w.comp).1] using h
  | selectTest t =>
      left; simp only [applyEvent] at h
      simpa [(changeTest_fields w.comp t).1] using h
  | selectSystem sys =>
      left; simp only [applyEvent] at h
      simpa [(changeSystem_fields w.comp sys).1] using h

/-- Witness for C9's event-loop part at a concrete world and event. -/
theorem c9_witness :
    sessionReady.comp.data = [] ∨ Event.tick = Event.clickStart :=
  c9_stop_preserves_data.2 sessionReady Event.tick rfl

/-- C10: the Start Live guard `!testId || live` uses JavaScript truthiness,
so a test whose backend id is `0` is treated as "no test selected": with
`testId` null or `0` the button is disabled and the click is a no-op, even
though a test with id `0` can be selected (live mode off) like any other. -/
theorem c10_zero_id_cannot_start :
    (∀ s : LiveState, (s.testId = none ∨ s.testId = some 0) →
        startDisabled s = true ∧ startLive s = s) ∧
    (∀ s : LiveState, s.live = false →
        (changeTest s 0).testId = some 0 ∧
          startLive (changeTest s 0) = changeTest s 0 ∧
          (startLive (changeTest s 0)).live = false) := by
  constructor
  · intro s h
    have hd : startDisabled s = true := by
      rcases h with h | h <;> simp [startDisabled, jsFalsy, h]
    exact ⟨hd, by simp [startLive, hd]⟩
  · intro s h
    have h1 : (changeTest s 0).testId = some 0 := by simp [changeTest, h]
    have h2 : (changeTest s 0).live = false := by
      unfold changeTest
      simp [h]
    have hd : startDisabled (changeTest s 0) = true := by
      simp [startDisabled, jsFalsy, h1]
    refine ⟨h1, by simp [startLive, hd], ?_⟩
    simp [startLive, hd, h2]

/-- Witness for C10: a selectable test with id `0` blocks Start Live. -/
theorem c10_witness :
    (changeTest readyComp 0).testId = some 0 ∧
      startLive (changeTest readyComp 0) = changeTest readyComp 0 ∧
      (startLive (changeTest readyComp 0)).live = false :=
  c10_zero_id_cannot_start.2 readyComp rfl

/-! Cursor/maximum development for C5. -/

/-- Folding `max` over a strictly ascending list of integers, all beyond the
seed, lands on the last element, which bounds every element. -/
theorem foldl_max_ascending (l : List Int) (c m : Int) (hp : l.Pairwise (· < ·))
    (hc : ∀ x ∈ l, c < x) (hm : l.getLast? = some m) :
    l.foldl max c = m ∧ ∀ x ∈ l, x ≤ m := by
  induction l generalizing c with
  | nil => simp at hm
  | cons a t ih =>
      obtain ⟨ha, hpt⟩ := List.pairwise_cons.mp hp
      cases t with
      | nil =>
          simp only [List.getLast?_singleton, Option.some.injEq] at hm
          subst hm
          refine ⟨?_, by simp⟩
          simp only [List.foldl_cons, List.foldl_nil]
          exact max_eq_right (le_of_lt (hc a (by simp)))
      | cons b t' =>
          have hm' : (b :: t').getLast? = some m := by
            rwa [List.getLast?_cons_cons] at hm
          have hct : ∀ x ∈ b :: t', max c a < x := fun x hx =>
            max_lt (hc x (List.mem_cons_of_mem a hx)) (ha x hx)
          obtain ⟨h1, h2⟩ := ih (max c a) hpt hct hm'
          refine ⟨h1, ?_⟩
          intro x hx
          rcases List.mem_cons.mp hx with hx | hx
          · subst hx
            have hmmem : m ∈ b :: t' := by
              have := List.getLast?_eq_getLast_of_ne_nil
                (l := b :: t') (List.cons_ne_nil b t')
              rw [this] at hm'
              have : m = (b :: t').getLast (List.cons_ne_nil b t') :=
                (Option.some.injEq _ _ ▸ hm'.symm)
              rw [this]
              exact List.getLast_mem _
            exact le_of_lt (ha m hmmem)
          · exact h2 x hx

/-- One valid poll tick preserves the cursor invariant: the cursor equals the
maximum `idx` over the accumulated store (seeded at the session start value
`0`) and stays non-negative. -/
theorem pollTick_cursor_max (s : LiveState) (b : List Point) (now : String)
    (hv : ValidBatch s.lastIdx b)
    (hinv : (s.data.map Point.idx).foldl max 0 = s.lastIdx)
    (h0 : 0 ≤ s.lastIdx) :
    ((pollTick s b now).data.map Point.idx).foldl max 0 =
        (pollTick s b now).lastIdx ∧
      0 ≤ (pollTick s b now).lastIdx := by
  obtain ⟨hne, hch, hgt⟩ := hv
  have hlast : b.getLast? = some (b.getLast hne) :=
    List.getLast?_eq_getLast_of_ne_nil hne
  have hmap : (b.map Point.idx).getLast? = some (b.getLast hne).idx := by
    rw [List.getLast?_map, hlast]; rfl
  have hpair : (b.map Point.idx).Pairwise (· < ·) := by
    rw [← List.chain'_iff_pairwise]
    exact (List.chain'_map Point.idx).mpr hch
  have hcl : ∀ x ∈ b.map Point.idx, s.lastIdx < x := by
    intro x hx
    obtain ⟨p, hp, rfl⟩ := List.mem_map.mp hx
    exact hgt p hp
  obtain ⟨hfold, _⟩ :=
    foldl_max_ascending (b.map Point.idx) s.lastIdx (b.getLast hne).idx
      hpair hcl hmap
  have hidx : (pollTick s b now).lastIdx = (b.getLast hne).idx := by
    rw [pollTick_lastIdx]
    unfold batchCursor
    rw [hlast]
  constructor
  · rw [pollTick_data, List.map_append, List.foldl_append, hinv, hidx, hfold]
  · rw [hidx]
    exact le_of_lt (lt_of_le_of_lt h0 (hgt _ (List.getLast_mem hne)))

/-- The cursor invariant holds after any run of valid poll responses. -/
theorem runPolls_cursor_max (bs : List (List Point)) (s : LiveState)
    (hv : ValidBatches s.lastIdx bs)
    (hinv : (s.data.map Point.idx).foldl max 0 = s.lastIdx)
    (h0 : 0 ≤ s.lastIdx) :
    ((runPolls s bs).data.map Point.idx).foldl max 0 =
        (runPolls s bs).lastIdx ∧
      0 ≤ (runPolls s bs).lastIdx := by
  induction bs generalizing s with
  | nil => exact ⟨hinv, h0⟩
  | cons b rest ih =>
      obtain ⟨hvb, hrest⟩ := hv
      obtain ⟨h1, h2⟩ := pollTick_cursor_max s b "t" hvb hinv h0
      have hrest' : ValidBatches (pollTick s b "t").lastIdx rest := by
        rw [pollTick_lastIdx]; exact hrest
      exact ih (pollTick s b "t") hrest' h1 h2

/-- Truncating a valid batch sequence keeps it valid. -/
theorem validBatches_take (c : Int) (bs : List (List Point)) (n : Nat)
    (h : ValidBatches c bs) : ValidBatches c (bs.take n) := by
  induction bs generalizing c n with
  | nil => simpa using h
  | cons b rest ih =>
      cases n with
      | zero => exact trivial
      | succ n => exact ⟨h.1, ih (batchCursor c b) n h.2⟩

/-- C5: within one live session (store starts empty, cursor at zero), after
each of a sequence of valid non-empty appends the cursor equals the maximum
`idx` across all samples appended so far (folded with seed `0`); every poll
request carries `from_idx` equal to the cursor, and hence, under the
`/live_series` contract, no sample with `idx ≤ cursor` is ever served
again. -/
theorem c5_cursor_equals_max (s : LiveState) (bs : List (List Point)) (n : Nat)
    (hd : s.data = []) (hc : s.lastIdx = 0) (hv : ValidBatches 0 bs) :
    ((runPolls s (bs.take n)).data.map Point.idx).foldl max 0 =
        (runPolls s (bs.take n)).lastIdx ∧
      (pollRequest (runPolls s (bs.take n))).from_idx =
        (runPolls s (bs.take n)).lastIdx ∧
      ∀ resp, LiveSeriesResponse (pollRequest (runPolls s (bs.take n))) resp →
        ∀ p ∈ resp, ¬ p.idx ≤ (runPolls s (bs.take n)).lastIdx := by
  have hvt : ValidBatches s.lastIdx (bs.take n) := by
    rw [hc]; exact validBatches_take 0 bs n hv
  have hinv : (s.data.map Point.idx).foldl max 0 = s.lastIdx := by
    rw [hd, hc]; rfl
  obtain ⟨h1, _⟩ := runPolls_cursor_max (bs.take n) s hvt hinv (by rw [hc])
  refine ⟨h1, rfl, ?_⟩
  intro resp hr p hp
  exact not_le.mpr (hr.2.1 p hp)

/-- A concrete ascending batch for the C5 witness. -/
def batchA : List Point := [blankPoint 1, blankPoint 2]

/-- Witness for C5: one two-sample batch moves the cursor to the maximum
appended index. -/
theorem c5_witness :
    ((runPolls initialState ([batchA].take 1)).data.map Point.idx).foldl max 0 =
      (runPolls initialState ([batchA].take 1)).lastIdx :=
  (c5_cursor_equals_max initialState [batchA] 1 rfl rfl
    ⟨⟨by decide, List.chain'_cons.mpr ⟨by decide, List.chain'_singleton _⟩,
      by decide⟩, trivial⟩).1

end LiveViewer
